import Mathlib

/-!
Verification of the fx-risk-aggregator core: a shallow embedding of the
trade data model (`src/models.py`), the Garman-Kohlhagen pricing and
currency-normalization engine (`src/pricing.py`), and the portfolio
aggregator (`src/aggregator.py`), over exact real arithmetic.  Machine
floats are modelled by `ℝ`; `scipy.stats.norm.cdf`/`pdf` are modelled by
the exact standard normal CDF/PDF; pandas DataFrames of result rows are
modelled by lists of records.
-/

namespace FXRisk

noncomputable section

open MeasureTheory

/-! ## Data model (src/models.py) -/

/-- `OptionType(str, Enum)` with values `"Call"` and `"Put"`. -/
inductive OptionType where
  | CALL : OptionType
  | PUT : OptionType
deriving DecidableEq

/-- The typed, already-constructed `FXOptionTrade` record. -/
structure FXOptionTrade where
  trade_id : String
  pair : String
  spot_price : ℝ
  strike_price : ℝ
  notional : ℝ
  notional_currency : String
  volatility : ℝ
  domestic_rate : ℝ
  foreign_rate : ℝ
  time_to_maturity : ℝ
  option_type : OptionType

/-- An uppercase ASCII letter, the character class `[A-Z]`. -/
def isUpperAZ (c : Char) : Bool :=
  decide ('A' ≤ c) && decide (c ≤ 'Z')

/-- The regex `^[A-Z]{3}$` on the `NotionalCurrency` field. -/
def ccyPattern (s : String) : Bool :=
  match s.data with
  | [a, b, c] => isUpperAZ a && isUpperAZ b && isUpperAZ c
  | _ => false

/-- The regex `^[A-Z]{3}/[A-Z]{3}$` on the `Underlying` (pair) field. -/
def pairPattern (s : String) : Bool :=
  match s.data with
  | [a, b, c, sl, d, e, f] =>
      isUpperAZ a && isUpperAZ b && isUpperAZ c && (sl == '/') &&
      isUpperAZ d && isUpperAZ e && isUpperAZ f
  | _ => false

/-- Python's `str.split('/')` on the underlying character list. -/
def splitOnSlash : List Char → List (List Char)
  | [] => [[]]
  | c :: rest =>
      if c == '/' then [] :: splitOnSlash rest
      else
        match splitOnSlash rest with
        | [] => [[c]]
        | h :: t => (c :: h) :: t

/-- `p.split('/')` as a list of strings. -/
def splitPair (p : String) : List String :=
  (splitOnSlash p.data).map String.mk

/-- The base leg of a well-formed pair: the first three characters. -/
def pairBase (p : String) : String := String.mk (p.data.take 3)

/-- The quote leg of a well-formed pair: the characters after the slash. -/
def pairQuote (p : String) : String := String.mk (p.data.drop 4)

/-- The pydantic constraints a constructed `FXOptionTrade` satisfies: field
patterns, positivity bounds, the volatility and maturity ranges, and the
cross-field notional-currency check of `check_currency_consistency`. -/
def validTrade (t : FXOptionTrade) : Prop :=
  pairPattern t.pair = true ∧
  ccyPattern t.notional_currency = true ∧
  0 < t.spot_price ∧
  0 < t.strike_price ∧
  0 < t.notional ∧
  0 < t.volatility ∧ t.volatility ≤ 5 ∧
  0 < t.time_to_maturity ∧ t.time_to_maturity ≤ 100 ∧
  t.notional_currency ∈ splitPair t.pair

/-! ## Pricing engine (src/pricing.py) -/

/-- `scipy.stats.norm.pdf`: the standard normal density. -/
def normPdf (x : ℝ) : ℝ :=
  Real.exp (-(1 / 2) * x ^ 2) / Real.sqrt (2 * Real.pi)

/-- `scipy.stats.norm.cdf`: the standard normal cumulative distribution. -/
def normCdf (x : ℝ) : ℝ :=
  ∫ t in Set.Iic x, normPdf t

/-- `BlackScholesFX._calculate_d1_d2`. -/
def calculate_d1_d2 (S K T rd rf sigma : ℝ) : ℝ × ℝ :=
  let sqrt_T := Real.sqrt T
  let d1 := (Real.log (S / K) + (rd - rf + 0.5 * sigma ^ 2) * T) / (sigma * sqrt_T)
  let d2 := d1 - sigma * sqrt_T
  (d1, d2)

/-- The dict returned by `BlackScholesFX.calculate_metrics`. -/
structure MetricsDict where
  PV_Native : ℝ
  Delta_Native : ℝ
  Vega_Native : ℝ
  Currency : String
  PV_USD : ℝ
  Delta_USD : ℝ
  Vega_USD : ℝ

instance : Inhabited MetricsDict := ⟨⟨0, 0, 0, "", 0, 0, 0⟩⟩

/-- `BlackScholesFX.calculate_metrics`.  The `Except` layer records whether
the Python function raises: on a pair that does not split in two, the
`try/except ValueError` sets `quote_ccy = "Unknown"` but leaves `base_ccy`
unbound, so the `elif` raises `NameError` unless the first branch
(`quote_ccy == reporting_currency`) short-circuits it.  No other statement
of the function can raise. -/
def calculate_metricsE (trade : FXOptionTrade) (reporting_currency : String) :
    Except String MetricsDict :=
  let S := trade.spot_price
  let K := trade.strike_price
  let T := trade.time_to_maturity
  let sigma := trade.volatility
  let rd := trade.domestic_rate
  let rf := trade.foreign_rate
  let notional := trade.notional
  let dd := calculate_d1_d2 S K T rd rf sigma
  let d1 := dd.1
  let d2 := dd.2
  let disc_d := Real.exp (-rd * T)
  let disc_f := Real.exp (-rf * T)
  let price_unit :=
    match trade.option_type with
    | OptionType.CALL => S * disc_f * normCdf d1 - K * disc_d * normCdf d2
    | OptionType.PUT => K * disc_d * normCdf (-d2) - S * disc_f * normCdf (-d1)
  let delta_unit :=
    match trade.option_type with
    | OptionType.CALL => disc_f * normCdf d1
    | OptionType.PUT => disc_f * (normCdf d1 - 1)
  let vega_unit := S * disc_f * normPdf d1 * Real.sqrt T
  let pv_native := price_unit * notional
  let delta_native := delta_unit * notional
  let vega_native := vega_unit * notional
  match splitPair trade.pair with
  | [base_ccy, quote_ccy] =>
      let fx_rate_to_usd : ℝ :=
        if quote_ccy = reporting_currency then 1.0
        else if base_ccy = reporting_currency ∧ quote_ccy ≠ reporting_currency then 1.0 / S
        else 1.0
      Except.ok
        { PV_Native := pv_native
          Delta_Native := delta_native
          Vega_Native := vega_native
          Currency := quote_ccy
          PV_USD := pv_native * fx_rate_to_usd
          Delta_USD := delta_native * fx_rate_to_usd
          Vega_USD := vega_native * fx_rate_to_usd }
  | _ =>
      if "Unknown" = reporting_currency then
        Except.ok
          { PV_Native := pv_native
            Delta_Native := delta_native
            Vega_Native := vega_native
            Currency := "Unknown"
            PV_USD := pv_native * 1.0
            Delta_USD := delta_native * 1.0
            Vega_USD := vega_native * 1.0 }
      else Except.error "NameError: base_ccy referenced before assignment"

/-- The metrics dict of a trade whose pricing call does not raise. -/
def getMetrics (t : FXOptionTrade) (rep : String) : MetricsDict :=
  match calculate_metricsE t rep with
  | Except.ok m => m
  | Except.error _ => default

/-! Spec-side formulas of §4.2 (Garman-Kohlhagen model, the spec's words),
to be compared with the source embedding. -/

/-- Spec §4.2 step 2: `d1 = (ln(S/K) + (r_d − r_f + 0.5σ²)·T) / (σ·√T)`. -/
def specD1 (t : FXOptionTrade) : ℝ :=
  (Real.log (t.spot_price / t.strike_price) +
      (t.domestic_rate - t.foreign_rate + 0.5 * t.volatility ^ 2) * t.time_to_maturity) /
    (t.volatility * Real.sqrt t.time_to_maturity)

/-- Spec §4.2 step 2: `d2 = d1 − σ·√T`. -/
def specD2 (t : FXOptionTrade) : ℝ :=
  specD1 t - t.volatility * Real.sqrt t.time_to_maturity

/-- Spec §4.2 step 3: domestic discount factor `e^(−r_d·T)`. -/
def specDiscD (t : FXOptionTrade) : ℝ :=
  Real.exp (-t.domestic_rate * t.time_to_maturity)

/-- Spec §4.2 step 3: foreign discount factor `e^(−r_f·T)`. -/
def specDiscF (t : FXOptionTrade) : ℝ :=
  Real.exp (-t.foreign_rate * t.time_to_maturity)

/-- Spec §4.2 step 4: unit price by option kind. -/
def specUnitPrice (t : FXOptionTrade) : ℝ :=
  match t.option_type with
  | OptionType.CALL =>
      t.spot_price * specDiscF t * normCdf (specD1 t) -
        t.strike_price * specDiscD t * normCdf (specD2 t)
  | OptionType.PUT =>
      t.strike_price * specDiscD t * normCdf (-specD2 t) -
        t.spot_price * specDiscF t * normCdf (-specD1 t)

/-- Spec §4.2 step 4: unit delta by option kind. -/
def specUnitDelta (t : FXOptionTrade) : ℝ :=
  match t.option_type with
  | OptionType.CALL => specDiscF t * normCdf (specD1 t)
  | OptionType.PUT => specDiscF t * (normCdf (specD1 t) - 1)

/-- Spec §4.2 step 4: unit vega, `S·(foreign DF)·φ(d1)·√T`, both kinds. -/
def specUnitVega (t : FXOptionTrade) : ℝ :=
  t.spot_price * specDiscF t * normPdf (specD1 t) * Real.sqrt t.time_to_maturity

/-- Spec §4.3: the conversion factor, a function of only the pair, the
reporting currency and the spot price. -/
def convFactor (pair rep : String) (S : ℝ) : ℝ :=
  match splitPair pair with
  | [b, q] =>
      if q = rep then 1
      else if b = rep ∧ q ≠ rep then 1 / S
      else 1
  | _ => 1

/-! ## Validation of raw rows (src/models.py under pydantic semantics)

Pydantic v2 validates every field, accumulating one error per violated
field constraint; `model_validator(mode='after')` runs only when no field
produced an error.  A raw row is modelled with each field already carrying
its primitive type (field-presence and type-coercion failures are a further
kind of accumulated field error, not modelled). -/

/-- One raw input row, field names as in the source aliases. -/
structure RawRow where
  trade_id : String
  pair : String
  spot : ℝ
  strike : ℝ
  notional : ℝ
  notional_currency : String
  vol : ℝ
  rate_dom : ℝ
  rate_for : ℝ
  expiry : ℝ
  option_type : String

/-- Coercion of the `OptionType` field to the enum. -/
def parseOptionType : String → Option OptionType
  | "Call" => some OptionType.CALL
  | "Put" => some OptionType.PUT
  | _ => none

def msgPairPattern : String :=
  "Underlying: string should match the currency pair pattern"

def msgSpotPositive : String := "Spot: input should be greater than 0"

def msgStrikePositive : String := "Strike: input should be greater than 0"

def msgNotionalPositive : String := "Notional: input should be greater than 0"

def msgCcyPattern : String :=
  "NotionalCurrency: string should match the currency code pattern"

def msgVolGt : String := "Vol: input should be greater than 0"

def msgVolLe : String := "Vol: input should be less than or equal to 5"

def msgExpiryGt : String := "Expiry: input should be greater than 0"

def msgExpiryLe : String := "Expiry: input should be less than or equal to 100"

def msgOptionType : String := "OptionType: input should be Call or Put"

/-- The error raised by `check_currency_consistency`, naming the offending
notional currency, the pair, and the two legal alternatives. -/
def crossFieldMsg (nc pr b q : String) : String :=
  "Notional Currency \x27" ++ nc ++ "\x27 is invalid for Pair \x27" ++ pr ++
    "\x27. Must be either \x27" ++ b ++ "\x27 or \x27" ++ q ++ "\x27."

/-- The accumulated field-level errors of a row, in field-declaration
order.  Each pydantic `Field` constraint contributes at most one message. -/
def fieldErrors (r : RawRow) : List String :=
  (if pairPattern r.pair = true then [] else [msgPairPattern]) ++
  (if 0 < r.spot then [] else [msgSpotPositive]) ++
  (if 0 < r.strike then [] else [msgStrikePositive]) ++
  (if 0 < r.notional then [] else [msgNotionalPositive]) ++
  (if ccyPattern r.notional_currency = true then [] else [msgCcyPattern]) ++
  (if 0 < r.vol then (if r.vol ≤ 5 then [] else [msgVolLe]) else [msgVolGt]) ++
  (if 0 < r.expiry then (if r.expiry ≤ 100 then [] else [msgExpiryLe]) else [msgExpiryGt]) ++
  (match parseOptionType r.option_type with | some _ => [] | none => [msgOptionType])

/-- Construction of an `FXOptionTrade` from a raw row: pydantic field
validation (errors accumulated across all fields), then — only when no
field erred — the `check_currency_consistency` after-validator. -/
def validateTrade (r : RawRow) : Except (List String) FXOptionTrade :=
  if fieldErrors r = [] then
    match parseOptionType r.option_type with
    | none => Except.error [msgOptionType]
    | some ot =>
        let t : FXOptionTrade :=
          { trade_id := r.trade_id
            pair := r.pair
            spot_price := r.spot
            strike_price := r.strike
            notional := r.notional
            notional_currency := r.notional_currency
            volatility := r.vol
            domestic_rate := r.rate_dom
            foreign_rate := r.rate_for
            time_to_maturity := r.expiry
            option_type := ot }
        if '/' ∈ r.pair.data then
          match splitPair r.pair with
          | [base, quote] =>
              if r.notional_currency ≠ base ∧ r.notional_currency ≠ quote then
                Except.error [crossFieldMsg r.notional_currency r.pair base quote]
              else Except.ok t
          | _ => Except.error ["ValueError: unpacking error in check_currency_consistency"]
        else Except.ok t
  else Except.error (fieldErrors r)

/-! ## Portfolio aggregation (src/aggregator.py)

A pandas DataFrame of per-trade result rows (as assembled by the driver in
`main.py`) is modelled as a list of records carrying the columns the
aggregator touches. -/

/-- One result row of the trade report. -/
structure ResultRow where
  trade_id : String
  pair : String
  currency : String
  status : String
  pv_usd : ℝ
  delta_usd : ℝ
  vega_usd : ℝ

/-- The three shapes of DataFrame `calculate_portfolio_totals` returns:
the empty frame, the `"No Valid Trades"` sentinel row, or the numeric
totals rows with the count of valid trades. -/
inductive TotalsFrame where
  | emptyFrame : TotalsFrame
  | noValidTrades : TotalsFrame
  | totals (pv delta vega : ℝ) (count : ℕ) : TotalsFrame
deriving DecidableEq

/-- `PortfolioAggregator.calculate_portfolio_totals`. -/
def calculate_portfolio_totals (rows : List ResultRow) : TotalsFrame :=
  if rows.isEmpty then TotalsFrame.emptyFrame
  else
    let valid := rows.filter (fun r => r.status = "Success")
    if valid.isEmpty then TotalsFrame.noValidTrades
    else
      TotalsFrame.totals
        ((valid.map ResultRow.pv_usd).sum)
        ((valid.map ResultRow.delta_usd).sum)
        ((valid.map ResultRow.vega_usd).sum)
        valid.length

/-- `PortfolioAggregator.group_risk_by_pair`: one output row per distinct
pair among the successful rows, carrying the per-key sums of the
normalized columns (pandas sorts group keys; key order is immaterial to
every claim, first-occurrence order is used here). -/
def group_risk_by_pair (rows : List ResultRow) : List (String × ℝ × ℝ × ℝ) :=
  if rows.isEmpty then []
  else
    let valid := rows.filter (fun r => r.status = "Success")
    ((valid.map ResultRow.pair).dedup).map fun p =>
      let grp := valid.filter (fun r => r.pair = p)
      (p, (grp.map ResultRow.pv_usd).sum, (grp.map ResultRow.delta_usd).sum,
        (grp.map ResultRow.vega_usd).sum)

/-- `PortfolioAggregator.group_risk_by_currency`, same shape grouped by the
quote-currency column. -/
def group_risk_by_currency (rows : List ResultRow) : List (String × ℝ × ℝ × ℝ) :=
  if rows.isEmpty then []
  else
    let valid := rows.filter (fun r => r.status = "Success")
    ((valid.map ResultRow.currency).dedup).map fun c =>
      let grp := valid.filter (fun r => r.currency = c)
      (c, (grp.map ResultRow.pv_usd).sum, (grp.map ResultRow.delta_usd).sum,
        (grp.map ResultRow.vega_usd).sum)

/-! Spec-side aggregation sums (§4.4's words): sums of the normalized
fields over the rows tagged `"Success"`. -/

/-- Spec §4.4: sum of normalized price over successful rows. -/
def sumPVOverSuccess (rows : List ResultRow) : ℝ :=
  ((rows.filter (fun r => r.status = "Success")).map ResultRow.pv_usd).sum

/-- Spec §4.4: sum of normalized delta over successful rows. -/
def sumDeltaOverSuccess (rows : List ResultRow) : ℝ :=
  ((rows.filter (fun r => r.status = "Success")).map ResultRow.delta_usd).sum

/-- Spec §4.4: sum of normalized vega over successful rows. -/
def sumVegaOverSuccess (rows : List ResultRow) : ℝ :=
  ((rows.filter (fun r => r.status = "Success")).map ResultRow.vega_usd).sum

/-- Spec §4.4: count of successful rows. -/
def countSuccess (rows : List ResultRow) : ℕ :=
  (rows.filter (fun r => r.status = "Success")).length

/-! ## Substring occurrence (for "the message names X") -/

/-- `n` is a leading segment of `h`. -/
def startsWithChars : List Char → List Char → Bool
  | [], _ => true
  | _ :: _, [] => false
  | a :: as, b :: bs => (a == b) && startsWithChars as bs

/-- `n` occurs contiguously somewhere in the second list. -/
def occursInChars (n : List Char) : List Char → Bool
  | [] => n.isEmpty
  | c :: t => startsWithChars n (c :: t) || occursInChars n t

/-- The string `needle` appears verbatim inside `msg`. -/
def nameAppearsIn (needle msg : String) : Bool :=
  occursInChars needle.data msg.data

/-! ## Concrete example inputs -/

/-- A representative valid trade: an at-the-forward EUR/USD call. -/
def tEx : FXOptionTrade where
  trade_id := "T1"
  pair := "EUR/USD"
  spot_price := 2
  strike_price := 1
  notional := 5
  notional_currency := "USD"
  volatility := 1
  domestic_rate := 0
  foreign_rate := 0
  time_to_maturity := 1
  option_type := OptionType.CALL

/-- A schema-valid trade with a negative foreign rate, deep in the money. -/
def tNeg : FXOptionTrade where
  trade_id := "T2"
  pair := "EUR/USD"
  spot_price := 10
  strike_price := 1
  notional := 1
  notional_currency := "USD"
  volatility := 1
  domestic_rate := 0
  foreign_rate := -1
  time_to_maturity := 1
  option_type := OptionType.CALL

/-- A trade violating the pricing precondition: zero time to maturity. -/
def tBadT : FXOptionTrade :=
  { tEx with trade_id := "T0", time_to_maturity := 0 }

/-- A raw row with well-formed pair `EUR/USD`, mismatched notional currency
`GBP`, and a range-violating volatility of 0. -/
def rowC6 : RawRow where
  trade_id := "R6"
  pair := "EUR/USD"
  spot := 2
  strike := 1
  notional := 5
  notional_currency := "GBP"
  vol := 0
  rate_dom := 0
  rate_for := 0
  expiry := 1
  option_type := "Call"

/-- A raw row with well-formed pair, mismatched notional currency `GBP`,
and a range-violating expiry of 0. -/
def rowC7 : RawRow :=
  { rowC6 with trade_id := "R7", vol := 0.2, expiry := 0 }

/-- A raw row passing every field-level check but with a mismatched
notional currency. -/
def rowMismatch : RawRow :=
  { rowC6 with trade_id := "R8", vol := 0.2 }

/-- A raw row passing every check. -/
def rowOk : RawRow :=
  { rowC6 with trade_id := "R9", vol := 0.2, notional_currency := "USD" }

/-- A successful result row. -/
def rSuc : ResultRow where
  trade_id := "S1"
  pair := "EUR/USD"
  currency := "USD"
  status := "Success"
  pv_usd := 100
  delta_usd := 50
  vega_usd := 10

/-- A failed result row. -/
def rFail : ResultRow where
  trade_id := "F1"
  pair := "EUR/USD"
  currency := "USD"
  status := "Failed"
  pv_usd := 999
  delta_usd := 0
  vega_usd := 0

/-! ## Helper lemmas: pair splitting -/

lemma isUpperAZ_ne_slash {c : Char} (h : isUpperAZ c = true) : (c == '/') = false := by
  cases hc : c == '/' with
  | false => rfl
  | true =>
      have hceq : c = '/' := by simpa using hc
      subst hceq
      exact absurd h (by decide)

lemma pairPattern_shape {p : String} (h : pairPattern p = true) :
    ∃ a b c d e f : Char,
      p.data = [a, b, c, '/', d, e, f] ∧
      isUpperAZ a = true ∧ isUpperAZ b = true ∧ isUpperAZ c = true ∧
      isUpperAZ d = true ∧ isUpperAZ e = true ∧ isUpperAZ f = true := by
  obtain ⟨l⟩ := p
  rcases l with _ | ⟨a, _ | ⟨b, _ | ⟨c, _ | ⟨s, _ | ⟨d, _ | ⟨e, _ | ⟨f, _ | ⟨g, rest⟩⟩⟩⟩⟩⟩⟩⟩ <;>
    simp [pairPattern, Bool.and_eq_true, beq_iff_eq] at h
  obtain ⟨⟨⟨⟨⟨⟨ha, hb⟩, hc⟩, hs⟩, hd⟩, he⟩, hf⟩ := h
  subst hs
  exact ⟨a, b, c, d, e, f, rfl, ha, hb, hc, hd, he, hf⟩

lemma splitOnSlash_shape (a b c d e f : Char)
    (ha : (a == '/') = false) (hb : (b == '/') = false) (hc : (c == '/') = false)
    (hd : (d == '/') = false) (he : (e == '/') = false) (hf : (f == '/') = false) :
    splitOnSlash [a, b, c, '/', d, e, f] = [[a, b, c], [d, e, f]] := by
  simp [splitOnSlash, ha, hb, hc, hd, he, hf]

lemma splitPair_eq {p : String} (h : pairPattern p = true) :
    splitPair p = [pairBase p, pairQuote p] := by
  obtain ⟨a, b, c, d, e, f, hdata, ha, hb, hc, hd, he, hf⟩ := pairPattern_shape h
  unfold splitPair pairBase pairQuote
  rw [hdata,
    splitOnSlash_shape a b c d e f (isUpperAZ_ne_slash ha) (isUpperAZ_ne_slash hb)
      (isUpperAZ_ne_slash hc) (isUpperAZ_ne_slash hd) (isUpperAZ_ne_slash he)
      (isUpperAZ_ne_slash hf)]
  rfl

/-! ## Helper lemmas: the standard normal distribution -/

lemma normPdf_pos (x : ℝ) : 0 < normPdf x := by
  unfold normPdf
  exact div_pos (Real.exp_pos _) (Real.sqrt_pos.mpr (by positivity))

lemma normPdf_even (x : ℝ) : normPdf (-x) = normPdf x := by
  unfold normPdf
  rw [neg_sq]

lemma integrable_normPdf : Integrable normPdf := by
  have h : Integrable (fun x : ℝ => Real.exp (-(1 / 2 : ℝ) * x ^ 2)) :=
    integrable_exp_neg_mul_sq (by norm_num)
  exact h.div_const _

lemma integral_normPdf : ∫ x, normPdf x = 1 := by
  unfold normPdf
  rw [integral_div, integral_gaussian]
  have h2 : Real.pi / (1 / 2) = 2 * Real.pi := by ring
  rw [h2, div_self (ne_of_gt (Real.sqrt_pos.mpr (by positivity)))]

lemma normCdf_neg_eq (x : ℝ) : normCdf (-x) = ∫ t in Set.Ioi x, normPdf t := by
  unfold normCdf
  have h1 : (∫ t in Set.Iic (-x), normPdf (-t)) = ∫ t in Set.Ioi (-(-x)), normPdf t :=
    integral_comp_neg_Iic (-x) normPdf
  simp only [neg_neg] at h1
  rw [← h1]
  exact setIntegral_congr_fun measurableSet_Iic fun t _ => (normPdf_even t).symm

lemma normCdf_add_neg (x : ℝ) : normCdf x + normCdf (-x) = 1 := by
  rw [normCdf_neg_eq]
  unfold normCdf
  rw [intervalIntegral.integral_Iic_add_Ioi integrable_normPdf.integrableOn integrable_normPdf.integrableOn]
  exact integral_normPdf

lemma normCdf_mono : Monotone normCdf := by
  intro x y hxy
  unfold normCdf
  refine setIntegral_mono_set integrable_normPdf.integrableOn
    (Filter.Eventually.of_forall fun t => (normPdf_pos t).le) ?_
  exact HasSubset.Subset.eventuallyLE (Set.Iic_subset_Iic.mpr hxy)

lemma normCdf_pos (x : ℝ) : 0 < normCdf x := by
  have hseg : 0 < ∫ t in Set.Ioc (x - 1) x, normPdf t := by
    rw [← intervalIntegral.integral_of_le (by linarith : x - 1 ≤ x)]
    exact intervalIntegral.intervalIntegral_pos_of_pos integrable_normPdf.intervalIntegrable
      normPdf_pos (by linarith)
  have hmono : (∫ t in Set.Ioc (x - 1) x, normPdf t) ≤ normCdf x := by
    unfold normCdf
    refine setIntegral_mono_set integrable_normPdf.integrableOn
      (Filter.Eventually.of_forall fun t => (normPdf_pos t).le) ?_
    exact HasSubset.Subset.eventuallyLE fun t ht => ht.2
  linarith

lemma normCdf_lt_one (x : ℝ) : normCdf x < 1 := by
  have h := normCdf_add_neg x
  have h2 := normCdf_pos (-x)
  linarith

lemma normCdf_zero : normCdf 0 = 1 / 2 := by
  have h := normCdf_add_neg 0
  rw [neg_zero] at h
  linarith

/-! ## Helper lemmas: characterizing `calculate_metrics` on well-formed pairs -/

lemma calculate_metricsE_eq (t : FXOptionTrade) (rep : String)
    (h : pairPattern t.pair = true) :
    calculate_metricsE t rep = Except.ok
      { PV_Native := specUnitPrice t * t.notional
        Delta_Native := specUnitDelta t * t.notional
        Vega_Native := specUnitVega t * t.notional
        Currency := pairQuote t.pair
        PV_USD := specUnitPrice t * t.notional * convFactor t.pair rep t.spot_price
        Delta_USD := specUnitDelta t * t.notional * convFactor t.pair rep t.spot_price
        Vega_USD := specUnitVega t * t.notional * convFactor t.pair rep t.spot_price } := by
  have hs := splitPair_eq h
  rcases hot : t.option_type <;>
    simp only [calculate_metricsE, calculate_d1_d2, convFactor, hs, hot, Except.ok.injEq,
      MetricsDict.mk.injEq, specUnitPrice, specUnitDelta, specUnitVega, specD1, specD2,
      specDiscD, specDiscF] <;>
    split_ifs <;> norm_num

lemma getMetrics_eq (t : FXOptionTrade) (rep : String)
    (h : pairPattern t.pair = true) :
    getMetrics t rep =
      { PV_Native := specUnitPrice t * t.notional
        Delta_Native := specUnitDelta t * t.notional
        Vega_Native := specUnitVega t * t.notional
        Currency := pairQuote t.pair
        PV_USD := specUnitPrice t * t.notional * convFactor t.pair rep t.spot_price
        Delta_USD := specUnitDelta t * t.notional * convFactor t.pair rep t.spot_price
        Vega_USD := specUnitVega t * t.notional * convFactor t.pair rep t.spot_price } := by
  unfold getMetrics
  rw [calculate_metricsE_eq t rep h]

/-- The update lemmas: changing only the option kind leaves the
kind-independent quantities unchanged. -/
lemma specD1_update (t : FXOptionTrade) (x : OptionType) :
    specD1 { t with option_type := x } = specD1 t := rfl

lemma specD2_update (t : FXOptionTrade) (x : OptionType) :
    specD2 { t with option_type := x } = specD2 t := rfl

lemma specDiscD_update (t : FXOptionTrade) (x : OptionType) :
    specDiscD { t with option_type := x } = specDiscD t := rfl

lemma specDiscF_update (t : FXOptionTrade) (x : OptionType) :
    specDiscF { t with option_type := x } = specDiscF t := rfl

/-! ## Helper lemmas: concrete inputs -/

lemma validTrade_tEx : validTrade tEx := by
  refine ⟨by decide, by decide, ?_, ?_, ?_, ?_, ?_, ?_, ?_, by decide⟩ <;> norm_num [tEx]

lemma validTrade_tNeg : validTrade tNeg := by
  refine ⟨by decide, by decide, ?_, ?_, ?_, ?_, ?_, ?_, ?_, by decide⟩ <;> norm_num [tNeg]

lemma fieldErrors_rowC6 : fieldErrors rowC6 = [msgVolGt] := by
  have hp : pairPattern "EUR/USD" = true := by decide
  have hc : ccyPattern "GBP" = true := by decide
  norm_num [fieldErrors, rowC6, hp, hc, parseOptionType]

lemma fieldErrors_rowC7 : fieldErrors rowC7 = [msgExpiryGt] := by
  have hp : pairPattern "EUR/USD" = true := by decide
  have hc : ccyPattern "GBP" = true := by decide
  norm_num [fieldErrors, rowC7, rowC6, hp, hc, parseOptionType]

lemma fieldErrors_rowMismatch : fieldErrors rowMismatch = [] := by
  have hp : pairPattern "EUR/USD" = true := by decide
  have hc : ccyPattern "GBP" = true := by decide
  norm_num [fieldErrors, rowMismatch, rowC6, hp, hc, parseOptionType]

lemma validateTrade_rowC6 : validateTrade rowC6 = Except.error [msgVolGt] := by
  rw [validateTrade, if_neg (by rw [fieldErrors_rowC6]; simp), fieldErrors_rowC6]

lemma validateTrade_rowC7 : validateTrade rowC7 = Except.error [msgExpiryGt] := by
  rw [validateTrade, if_neg (by rw [fieldErrors_rowC7]; simp), fieldErrors_rowC7]

/-! ## Helper lemmas: validation structure -/

lemma fieldErrors_nil_facts {r : RawRow} (h : fieldErrors r = []) :
    pairPattern r.pair = true ∧ ∃ ot, parseOptionType r.option_type = some ot := by
  unfold fieldErrors at h
  simp only [List.append_eq_nil] at h
  obtain ⟨⟨⟨⟨⟨⟨⟨h1, h2⟩, h3⟩, h4⟩, h5⟩, h6⟩, h7⟩, h8⟩ := h
  constructor
  · by_cases hp : pairPattern r.pair = true
    · exact hp
    · rw [if_neg hp] at h1
      simp at h1
  · revert h8
    rcases hot : parseOptionType r.option_type with _ | ot
    · intro h8
      simp at h8
    · exact fun _ => ⟨ot, rfl⟩

lemma validateTrade_ok_shape {r : RawRow} (hnil : fieldErrors r = [])
    {ot : OptionType} (hot : parseOptionType r.option_type = some ot) :
    validateTrade r =
      (if r.notional_currency ≠ pairBase r.pair ∧ r.notional_currency ≠ pairQuote r.pair then
        Except.error
          [crossFieldMsg r.notional_currency r.pair (pairBase r.pair) (pairQuote r.pair)]
      else Except.ok
        { trade_id := r.trade_id
          pair := r.pair
          spot_price := r.spot
          strike_price := r.strike
          notional := r.notional
          notional_currency := r.notional_currency
          volatility := r.vol
          domestic_rate := r.rate_dom
          foreign_rate := r.rate_for
          time_to_maturity := r.expiry
          option_type := ot }) := by
  have hp : pairPattern r.pair = true := (fieldErrors_nil_facts hnil).1
  obtain ⟨a, b, c, d, e, f, hdata, -⟩ := pairPattern_shape hp
  have hslash : '/' ∈ r.pair.data := by rw [hdata]; simp
  have hsp := splitPair_eq hp
  unfold validateTrade
  rw [if_pos hnil, hot]
  dsimp only
  rw [if_pos hslash, hsp]

/-! ## Claim theorems -/

/-- Claim C1: for every valid Trade Record, `calculate_metrics` computes the
Garman-Kohlhagen quantities exactly as specified: `d1` and `d2` as in the
spec, and the native price, delta and vega equal to the per-kind unit
metrics of §4.2 scaled by notional. -/
theorem C1_garman_kohlhagen_exact (t : FXOptionTrade) (rep : String) (h : validTrade t) :
    specD1 t =
      (Real.log (t.spot_price / t.strike_price) +
          (t.domestic_rate - t.foreign_rate + 0.5 * t.volatility ^ 2) * t.time_to_maturity) /
        (t.volatility * Real.sqrt t.time_to_maturity) ∧
    specD2 t = specD1 t - t.volatility * Real.sqrt t.time_to_maturity ∧
    (getMetrics t rep).PV_Native = t.notional * specUnitPrice t ∧
    (getMetrics t rep).Delta_Native = t.notional * specUnitDelta t ∧
    (getMetrics t rep).Vega_Native = t.notional * specUnitVega t := by
  refine ⟨rfl, rfl, ?_, ?_, ?_⟩ <;>
    · simp only [getMetrics_eq t rep h.1]
      ring

/-- Witness for C1 at the concrete trade `tEx`. -/
theorem C1_witness :
    validTrade tEx ∧
    (getMetrics tEx "USD").PV_Native = tEx.notional * specUnitPrice tEx :=
  ⟨validTrade_tEx, (C1_garman_kohlhagen_exact tEx "USD" validTrade_tEx).2.2.1⟩

/-- Claim C2: the normalization step multiplies each native metric by the
conversion factor 1 when the quote leg equals the reporting currency (so
normalized equals native exactly), by `1 / spot` when the base leg equals
the reporting currency and the quote leg does not, and by 1 in every other
case. -/
theorem C2_normalization_cases (t : FXOptionTrade) (rep : String) (h : validTrade t) :
    (pairQuote t.pair = rep →
      (getMetrics t rep).PV_USD = (getMetrics t rep).PV_Native ∧
      (getMetrics t rep).Delta_USD = (getMetrics t rep).Delta_Native ∧
      (getMetrics t rep).Vega_USD = (getMetrics t rep).Vega_Native) ∧
    (pairBase t.pair = rep ∧ pairQuote t.pair ≠ rep →
      (getMetrics t rep).PV_USD = (getMetrics t rep).PV_Native / t.spot_price ∧
      (getMetrics t rep).Delta_USD = (getMetrics t rep).Delta_Native / t.spot_price ∧
      (getMetrics t rep).Vega_USD = (getMetrics t rep).Vega_Native / t.spot_price) ∧
    (pairBase t.pair ≠ rep ∧ pairQuote t.pair ≠ rep →
      (getMetrics t rep).PV_USD = (getMetrics t rep).PV_Native ∧
      (getMetrics t rep).Delta_USD = (getMetrics t rep).Delta_Native ∧
      (getMetrics t rep).Vega_USD = (getMetrics t rep).Vega_Native) := by
  have hs := splitPair_eq h.1
  have hg := getMetrics_eq t rep h.1
  refine ⟨fun hq => ?_, fun hbq => ?_, fun hbq => ?_⟩
  · simp only [hg, convFactor, hs]
    rw [if_pos hq]
    exact ⟨by ring, by ring, by ring⟩
  · simp only [hg, convFactor, hs]
    rw [if_neg hbq.2, if_pos ⟨hbq.1, hbq.2⟩]
    exact ⟨by ring, by ring, by ring⟩
  · simp only [hg, convFactor, hs]
    rw [if_neg hbq.2, if_neg (fun hh : pairBase t.pair = rep ∧ pairQuote t.pair ≠ rep => hbq.1 hh.1)]
    exact ⟨by ring, by ring, by ring⟩

/-- Witness for C2 at `tEx` (quote leg `USD` equals the reporting
currency). -/
theorem C2_witness :
    validTrade tEx ∧ pairQuote tEx.pair = "USD" ∧
    (getMetrics tEx "USD").PV_USD = (getMetrics tEx "USD").PV_Native :=
  ⟨validTrade_tEx, by decide,
    ((C2_normalization_cases tEx "USD" validTrade_tEx).1 (by decide)).1⟩

/-- Claim C10 (implicit): one single conversion factor — a function of the
pair, the reporting currency and the spot alone — scales all three native
metrics to their normalized forms, and the returned `Currency` field is the
quote leg of the trade's pair. -/
theorem C10_common_factor (t : FXOptionTrade) (rep : String) (h : validTrade t) :
    (getMetrics t rep).PV_USD =
      convFactor t.pair rep t.spot_price * (getMetrics t rep).PV_Native ∧
    (getMetrics t rep).Delta_USD =
      convFactor t.pair rep t.spot_price * (getMetrics t rep).Delta_Native ∧
    (getMetrics t rep).Vega_USD =
      convFactor t.pair rep t.spot_price * (getMetrics t rep).Vega_Native ∧
    (getMetrics t rep).Currency = pairQuote t.pair := by
  simp only [getMetrics_eq t rep h.1]
  exact ⟨by ring, by ring, by ring, trivial⟩

/-- Witness for C10 at `tEx`. -/
theorem C10_witness :
    validTrade tEx ∧
    (getMetrics tEx "USD").PV_USD =
      convFactor tEx.pair "USD" tEx.spot_price * (getMetrics tEx "USD").PV_Native ∧
    (getMetrics tEx "USD").Currency = pairQuote tEx.pair :=
  ⟨validTrade_tEx, (C10_common_factor tEx "USD" validTrade_tEx).1,
    (C10_common_factor tEx "USD" validTrade_tEx).2.2.2⟩


/-- Claim C5: put-call parity — for two valid trades identical except in
option kind, native price of the Call minus native price of the Put equals
`notional * (S*exp(-r_f*T) - K*exp(-r_d*T))`, exactly, over the real-number
embedding. -/
theorem C5_put_call_parity (t : FXOptionTrade) (rep : String) (h : validTrade t) :
    (getMetrics { t with option_type := OptionType.CALL } rep).PV_Native -
      (getMetrics { t with option_type := OptionType.PUT } rep).PV_Native =
    t.notional * (t.spot_price * Real.exp (-t.foreign_rate * t.time_to_maturity) -
      t.strike_price * Real.exp (-t.domestic_rate * t.time_to_maturity)) := by
  have hp : pairPattern ({ t with option_type := OptionType.CALL } : FXOptionTrade).pair = true :=
    h.1
  have hp2 : pairPattern ({ t with option_type := OptionType.PUT } : FXOptionTrade).pair = true :=
    h.1
  rw [getMetrics_eq _ rep hp, getMetrics_eq _ rep hp2]
  dsimp only
  simp only [specUnitPrice, specD1_update, specD2_update, specDiscD_update, specDiscF_update,
    specDiscF, specDiscD]
  have h1 := normCdf_add_neg (specD1 t)
  have h2 := normCdf_add_neg (specD2 t)
  linear_combination
    (t.notional * (t.spot_price * Real.exp (-t.foreign_rate * t.time_to_maturity))) * h1 -
      (t.notional * (t.strike_price * Real.exp (-t.domestic_rate * t.time_to_maturity))) * h2

/-- Witness for C5 at the concrete trade `tEx`. -/
theorem C5_witness :
    validTrade tEx ∧
    (getMetrics { tEx with option_type := OptionType.CALL } "USD").PV_Native -
      (getMetrics { tEx with option_type := OptionType.PUT } "USD").PV_Native =
    tEx.notional * (tEx.spot_price * Real.exp (-tEx.foreign_rate * tEx.time_to_maturity) -
      tEx.strike_price * Real.exp (-tEx.domestic_rate * tEx.time_to_maturity)) :=
  ⟨validTrade_tEx, C5_put_call_parity tEx "USD" validTrade_tEx⟩

/-- Claim C3 counterexample: at the concrete trade `tBadT` with zero time
to maturity, `calculate_metrics` raises nothing and produces a numeric
result, refuting the claim that the engine independently guards the
preconditions with a `DomainError`. -/
theorem C3_counterexample :
    tBadT.time_to_maturity ≤ 0 ∧ (calculate_metricsE tBadT "USD").isOk = true := by
  constructor
  · norm_num [tBadT, tEx]
  · rw [calculate_metricsE_eq tBadT "USD" (by decide)]
    rfl

/-- Claim C3 amended: the engine performs no precondition guarding at all —
for any trade whose pair is well-formed, whatever its maturity or
volatility, `calculate_metrics` returns a (possibly meaningless) numeric
result and never raises; rejection of `T ≤ 0` or `σ ≤ 0` happens only
upstream in schema validation. -/
theorem C3_no_guard (t : FXOptionTrade) (rep : String) (h : pairPattern t.pair = true) :
    (calculate_metricsE t rep).isOk = true := by
  rw [calculate_metricsE_eq t rep h]
  rfl

/-- Witness for the amended C3 at the precondition-violating trade
`tBadT`. -/
theorem C3_witness :
    pairPattern tBadT.pair = true ∧ (calculate_metricsE tBadT "USD").isOk = true :=
  ⟨by decide, C3_no_guard tBadT "USD" (by decide)⟩

/-- Claim C4 counterexample: the schema-valid call `tNeg` (foreign rate
−1) has native delta strictly greater than its notional, refuting the
claimed bound `delta ∈ (0, notional]`. -/
theorem C4_counterexample :
    validTrade tNeg ∧ tNeg.option_type = OptionType.CALL ∧
    tNeg.notional < (getMetrics tNeg "USD").Delta_Native := by
  refine ⟨validTrade_tNeg, rfl, ?_⟩
  have hg := getMetrics_eq tNeg "USD" validTrade_tNeg.1
  simp only [hg]
  have hD1v : specD1 tNeg =
      (Real.log (10 / 1) + (0 - -1 + 0.5 * 1 ^ 2) * 1) / (1 * Real.sqrt 1) := rfl
  have hD1 : (0:ℝ) ≤ specD1 tNeg := by
    rw [hD1v, Real.sqrt_one]
    have hlog : (0:ℝ) ≤ Real.log (10 / 1) := Real.log_nonneg (by norm_num)
    norm_num
    linarith
  have hcdf : (1:ℝ) / 2 ≤ normCdf (specD1 tNeg) := by
    rw [← normCdf_zero]
    exact normCdf_mono hD1
  have hot : tNeg.option_type = OptionType.CALL := rfl
  have hF : specDiscF tNeg = Real.exp 1 := by
    simp [specDiscF, tNeg]
  have hd : specUnitDelta tNeg = specDiscF tNeg * normCdf (specD1 tNeg) := by
    simp only [specUnitDelta, hot]
  have hexp : (2:ℝ) < Real.exp 1 := by linarith [Real.exp_one_gt_d9]
  have hnot : tNeg.notional = 1 := rfl
  rw [hd, hF, hnot]
  nlinarith [hcdf, hexp, normCdf_pos (specD1 tNeg)]

/-- Claim C4 amended: under the additional hypothesis that the foreign
rate is nonnegative, the native delta of a Call lies in `(0, notional]`
and the native delta of a Put lies in `[−notional, 0)`; every metric is a
real number (the embedding is over `ℝ`, so outputs are finite by
construction). -/
theorem C4_delta_bounds (t : FXOptionTrade) (rep : String) (h : validTrade t)
    (hrf : 0 ≤ t.foreign_rate) :
    (t.option_type = OptionType.CALL →
      0 < (getMetrics t rep).Delta_Native ∧ (getMetrics t rep).Delta_Native ≤ t.notional) ∧
    (t.option_type = OptionType.PUT →
      -t.notional ≤ (getMetrics t rep).Delta_Native ∧ (getMetrics t rep).Delta_Native < 0) := by
  obtain ⟨hpat, -, -, -, hn, -, -, hT, -, -⟩ := h
  have hg := getMetrics_eq t rep hpat
  have hcp := normCdf_pos (specD1 t)
  have hc1 := normCdf_lt_one (specD1 t)
  have hF0 : 0 < specDiscF t := Real.exp_pos _
  have hFle : specDiscF t ≤ 1 := by
    unfold specDiscF
    refine Real.exp_le_one_iff.mpr ?_
    rw [neg_mul]
    exact neg_nonpos.mpr (mul_nonneg hrf hT.le)
  constructor
  · intro hot
    simp only [hg]
    have hd : specUnitDelta t = specDiscF t * normCdf (specD1 t) := by
      simp only [specUnitDelta, hot]
    rw [hd]
    constructor
    · exact mul_pos (mul_pos hF0 hcp) hn
    · have hFc : specDiscF t * normCdf (specD1 t) ≤ 1 := mul_le_one₀ hFle hcp.le hc1.le
      nlinarith [mul_nonneg (sub_nonneg.mpr hFc) hn.le]
  · intro hot
    simp only [hg]
    have hd : specUnitDelta t = specDiscF t * (normCdf (specD1 t) - 1) := by
      simp only [specUnitDelta, hot]
    rw [hd]
    constructor
    · have hFc : specDiscF t * (1 - normCdf (specD1 t)) ≤ 1 :=
        mul_le_one₀ hFle (by linarith) (by linarith)
      nlinarith [mul_nonneg (sub_nonneg.mpr hFc) hn.le]
    · have hneg : normCdf (specD1 t) - 1 < 0 := by linarith
      exact mul_neg_of_neg_of_pos (mul_neg_of_pos_of_neg hF0 hneg) hn

/-- Witness for the amended C4 at the concrete call `tEx`. -/
theorem C4_witness :
    validTrade tEx ∧ (0:ℝ) ≤ tEx.foreign_rate ∧
    (0 < (getMetrics tEx "USD").Delta_Native ∧
      (getMetrics tEx "USD").Delta_Native ≤ tEx.notional) :=
  ⟨validTrade_tEx, by norm_num [tEx],
    (C4_delta_bounds tEx "USD" validTrade_tEx (by norm_num [tEx])).1 rfl⟩

lemma startsWithChars_append (n rest : List Char) : startsWithChars n (n ++ rest) = true := by
  induction n with
  | nil => rfl
  | cons c t ih => simp [startsWithChars, ih]

lemma occursInChars_head (n l2 : List Char) : occursInChars n (n ++ l2) = true := by
  cases n with
  | nil =>
      cases l2 with
      | nil => rfl
      | cons c t => simp [occursInChars, startsWithChars]
  | cons c t => simp [occursInChars, startsWithChars, startsWithChars_append]

lemma occursInChars_append_left (n l1 : List Char) {l2 : List Char}
    (h : occursInChars n l2 = true) : occursInChars n (l1 ++ l2) = true := by
  induction l1 with
  | nil => simpa
  | cons c t ih => simp [occursInChars, ih]

lemma nameAppearsIn_of_decomp {n s : String} (l1 l2 : List Char)
    (h : s.data = l1 ++ (n.data ++ l2)) : nameAppearsIn n s = true := by
  unfold nameAppearsIn
  rw [h]
  exact occursInChars_append_left _ _ (occursInChars_head _ _)

lemma crossFieldMsg_names_nc (nc pr b q : String) :
    nameAppearsIn nc (crossFieldMsg nc pr b q) = true := by
  refine nameAppearsIn_of_decomp ("Notional Currency \x27".data)
    (("\x27 is invalid for Pair \x27" ++ pr ++ "\x27. Must be either \x27" ++ b ++
      "\x27 or \x27" ++ q ++ "\x27.").data) ?_
  simp [crossFieldMsg, String.data_append, List.append_assoc]

lemma crossFieldMsg_names_base (nc pr b q : String) :
    nameAppearsIn b (crossFieldMsg nc pr b q) = true := by
  refine nameAppearsIn_of_decomp
    (("Notional Currency \x27" ++ nc ++ "\x27 is invalid for Pair \x27" ++ pr ++
      "\x27. Must be either \x27").data)
    (("\x27 or \x27" ++ q ++ "\x27.").data) ?_
  simp [crossFieldMsg, String.data_append, List.append_assoc]

lemma crossFieldMsg_names_quote (nc pr b q : String) :
    nameAppearsIn q (crossFieldMsg nc pr b q) = true := by
  refine nameAppearsIn_of_decomp
    (("Notional Currency \x27" ++ nc ++ "\x27 is invalid for Pair \x27" ++ pr ++
      "\x27. Must be either \x27" ++ b ++ "\x27 or \x27").data)
    ("\x27.".data) ?_
  simp [crossFieldMsg, String.data_append, List.append_assoc]


/-- Claim C6 counterexample: the row `rowC6` has a well-formed pair and a
cross-field violation (notional currency GBP not a leg of EUR/USD) together
with a volatility range violation, yet validation reports only the
volatility message — the cross-field check is not evaluated, so the error
does not enumerate every violated constraint. -/
theorem C6_counterexample :
    pairPattern rowC6.pair = true ∧
    (rowC6.notional_currency ≠ pairBase rowC6.pair ∧
      rowC6.notional_currency ≠ pairQuote rowC6.pair) ∧
    ¬ (0 < rowC6.vol) ∧
    validateTrade rowC6 = Except.error [msgVolGt] ∧
    crossFieldMsg rowC6.notional_currency rowC6.pair (pairBase rowC6.pair)
      (pairQuote rowC6.pair) ∉ [msgVolGt] := by
  refine ⟨by decide, ⟨by decide, by decide⟩, by norm_num [rowC6], validateTrade_rowC6, by decide⟩

/-- Claim C6 amended: construction either yields a valid record or fails
with the full list of violated field-level constraints; the cross-field
notional-currency check is evaluated only when every field-level check
passes (not merely when the pair is well-formed); a partially constructed
record is never produced. -/
theorem C6_all_field_errors (r : RawRow) :
    (fieldErrors r ≠ [] → validateTrade r = Except.error (fieldErrors r)) ∧
    (fieldErrors r = [] →
      ((r.notional_currency = pairBase r.pair ∨ r.notional_currency = pairQuote r.pair) →
        ∃ t, validateTrade r = Except.ok t) ∧
      ((r.notional_currency ≠ pairBase r.pair ∧ r.notional_currency ≠ pairQuote r.pair) →
        validateTrade r = Except.error
          [crossFieldMsg r.notional_currency r.pair (pairBase r.pair) (pairQuote r.pair)])) := by
  constructor
  · intro hne
    unfold validateTrade
    rw [if_neg hne]
  · intro hnil
    obtain ⟨-, ot, hot⟩ := fieldErrors_nil_facts hnil
    have hshape := validateTrade_ok_shape hnil hot
    constructor
    · intro hmem
      have hcond : ¬ (r.notional_currency ≠ pairBase r.pair ∧
          r.notional_currency ≠ pairQuote r.pair) := by
        rintro ⟨hb, hq⟩
        rcases hmem with hm | hm
        · exact hb hm
        · exact hq hm
      refine
        ⟨{ trade_id := r.trade_id, pair := r.pair, spot_price := r.spot,
           strike_price := r.strike, notional := r.notional,
           notional_currency := r.notional_currency, volatility := r.vol,
           domestic_rate := r.rate_dom, foreign_rate := r.rate_for,
           time_to_maturity := r.expiry, option_type := ot }, ?_⟩
      rw [hshape, if_neg hcond]
    · intro hno
      rw [hshape, if_pos hno]

/-- Witness for the amended C6 at the concrete row `rowC6`. -/
theorem C6_witness :
    fieldErrors rowC6 ≠ [] ∧ validateTrade rowC6 = Except.error (fieldErrors rowC6) := by
  have hne : fieldErrors rowC6 ≠ [] := by rw [fieldErrors_rowC6]; simp
  exact ⟨hne, (C6_all_field_errors rowC6).1 hne⟩

/-- Claim C7 counterexample: the row `rowC7` has a well-formed pair and a
notional currency that is neither leg, yet construction fails with a
message (the expiry range error) naming none of the offending currency or
the two legal alternatives, because another field-level error suppresses
the cross-field check. -/
theorem C7_counterexample :
    pairPattern rowC7.pair = true ∧
    (rowC7.notional_currency ≠ pairBase rowC7.pair ∧
      rowC7.notional_currency ≠ pairQuote rowC7.pair) ∧
    validateTrade rowC7 = Except.error [msgExpiryGt] ∧
    nameAppearsIn rowC7.notional_currency msgExpiryGt = false ∧
    nameAppearsIn (pairBase rowC7.pair) msgExpiryGt = false ∧
    nameAppearsIn (pairQuote rowC7.pair) msgExpiryGt = false := by
  exact ⟨by decide, ⟨by decide, by decide⟩, validateTrade_rowC7, by decide, by decide, by decide⟩

/-- Claim C7 amended: for every mapping passing all field-level checks
whose notional currency is neither leg of the pair, construction fails
with the cross-field message, which names the offending currency and both
legal alternatives; and every successfully constructed record satisfies
`notional_currency ∈ {base, quote}`. -/
theorem C7_cross_field (r : RawRow) (t : FXOptionTrade) :
    (fieldErrors r = [] →
      (r.notional_currency ≠ pairBase r.pair ∧ r.notional_currency ≠ pairQuote r.pair) →
      validateTrade r = Except.error
          [crossFieldMsg r.notional_currency r.pair (pairBase r.pair) (pairQuote r.pair)] ∧
      nameAppearsIn r.notional_currency
        (crossFieldMsg r.notional_currency r.pair (pairBase r.pair) (pairQuote r.pair)) = true ∧
      nameAppearsIn (pairBase r.pair)
        (crossFieldMsg r.notional_currency r.pair (pairBase r.pair) (pairQuote r.pair)) = true ∧
      nameAppearsIn (pairQuote r.pair)
        (crossFieldMsg r.notional_currency r.pair (pairBase r.pair) (pairQuote r.pair)) = true) ∧
    (validateTrade r = Except.ok t →
      t.notional_currency = pairBase t.pair ∨ t.notional_currency = pairQuote t.pair) := by
  constructor
  · intro hnil hno
    obtain ⟨-, ot, hot⟩ := fieldErrors_nil_facts hnil
    have hshape := validateTrade_ok_shape hnil hot
    refine ⟨?_, crossFieldMsg_names_nc _ _ _ _, crossFieldMsg_names_base _ _ _ _,
      crossFieldMsg_names_quote _ _ _ _⟩
    rw [hshape, if_pos hno]
  · intro hok
    by_cases hnil : fieldErrors r = []
    · obtain ⟨hp, ot, hot⟩ := fieldErrors_nil_facts hnil
      have hshape := validateTrade_ok_shape hnil hot
      rw [hshape] at hok
      by_cases hcond : r.notional_currency ≠ pairBase r.pair ∧
          r.notional_currency ≠ pairQuote r.pair
      · rw [if_pos hcond] at hok
        cases hok
      · rw [if_neg hcond] at hok
        injection hok with h2
        subst h2
        push_neg at hcond
        by_cases hb : r.notional_currency = pairBase r.pair
        · exact Or.inl hb
        · exact Or.inr (hcond hb)
    · unfold validateTrade at hok
      rw [if_neg hnil] at hok
      cases hok


/-- Witness for the amended C7 at the concrete row `rowMismatch`. -/
theorem C7_witness :
    fieldErrors rowMismatch = [] ∧
    validateTrade rowMismatch = Except.error
      [crossFieldMsg rowMismatch.notional_currency rowMismatch.pair (pairBase rowMismatch.pair)
        (pairQuote rowMismatch.pair)] ∧
    nameAppearsIn rowMismatch.notional_currency
      (crossFieldMsg rowMismatch.notional_currency rowMismatch.pair (pairBase rowMismatch.pair)
        (pairQuote rowMismatch.pair)) = true := by
  have h1 := (C7_cross_field rowMismatch tEx).1 fieldErrors_rowMismatch ⟨by decide, by decide⟩
  exact ⟨fieldErrors_rowMismatch, h1.1, h1.2.1⟩

/-- Claim C8 counterexample: on a wholly empty collection,
`calculate_portfolio_totals` returns the empty frame, not the explicit
"no valid trades" sentinel row the claim promises. -/
theorem C8_counterexample :
    calculate_portfolio_totals [] = TotalsFrame.emptyFrame ∧
    TotalsFrame.emptyFrame ≠ TotalsFrame.noValidTrades := by
  exact ⟨rfl, fun h => TotalsFrame.noConfusion h⟩

/-- Claim C8 amended: an empty collection produces an empty result table;
a nonempty collection with no row tagged "Success" produces the explicit
"no valid trades" sentinel; neither case is a zero-filled numeric row or
an exception (the function is total and the three outcomes are distinct
constructors). -/
theorem C8_empty_vs_sentinel (rows : List ResultRow) :
    (rows = [] → calculate_portfolio_totals rows = TotalsFrame.emptyFrame) ∧
    (rows ≠ [] → (∀ r ∈ rows, r.status ≠ "Success") →
      calculate_portfolio_totals rows = TotalsFrame.noValidTrades) := by
  constructor
  · intro h
    subst h
    rfl
  · intro hne hall
    have hf : rows.filter (fun r => r.status = "Success") = [] :=
      List.filter_eq_nil_iff.mpr (fun a ha => by simpa using hall a ha)
    simp [calculate_portfolio_totals, List.isEmpty_eq_false.mpr hne, hf]

/-- Witness for the amended C8 at the singleton failed row. -/
theorem C8_witness :
    calculate_portfolio_totals [rFail] = TotalsFrame.noValidTrades := by
  refine (C8_empty_vs_sentinel [rFail]).2 (by simp) ?_
  intro r hr
  simp only [List.mem_singleton] at hr
  subst hr
  decide

/-- Claim C9: for every nonempty collection, the portfolio total is the
sum of the normalized PV/delta/vega over rows tagged "Success" together
with their count; each by-pair and by-currency group row carries the
per-key sums of the same normalized fields over Success rows; and
prepending any non-Success row changes no aggregate (strict filter). -/
theorem C9_success_only_sums (rows : List ResultRow) (hne : rows ≠ []) :
    (rows.filter (fun r => r.status = "Success") ≠ [] →
      calculate_portfolio_totals rows =
        TotalsFrame.totals (sumPVOverSuccess rows) (sumDeltaOverSuccess rows)
          (sumVegaOverSuccess rows) (countSuccess rows)) ∧
    (∀ p pv dv vv, (p, pv, dv, vv) ∈ group_risk_by_pair rows →
      pv = sumPVOverSuccess (rows.filter (fun r => r.pair = p)) ∧
      dv = sumDeltaOverSuccess (rows.filter (fun r => r.pair = p)) ∧
      vv = sumVegaOverSuccess (rows.filter (fun r => r.pair = p))) ∧
    (∀ c pv dv vv, (c, pv, dv, vv) ∈ group_risk_by_currency rows →
      pv = sumPVOverSuccess (rows.filter (fun r => r.currency = c)) ∧
      dv = sumDeltaOverSuccess (rows.filter (fun r => r.currency = c)) ∧
      vv = sumVegaOverSuccess (rows.filter (fun r => r.currency = c))) ∧
    (∀ r : ResultRow, r.status ≠ "Success" →
      calculate_portfolio_totals (r :: rows) = calculate_portfolio_totals rows ∧
      group_risk_by_pair (r :: rows) = group_risk_by_pair rows ∧
      group_risk_by_currency (r :: rows) = group_risk_by_currency rows) := by
  have h0 : rows.isEmpty = false := List.isEmpty_eq_false.mpr hne
  refine ⟨?_, ?_, ?_, ?_⟩
  · intro hv
    simp [calculate_portfolio_totals, h0, List.isEmpty_eq_false.mpr hv,
      sumPVOverSuccess, sumDeltaOverSuccess, sumVegaOverSuccess, countSuccess]
  · intro p pv dv vv hmem
    simp only [group_risk_by_pair, h0, Bool.false_eq_true, if_false, List.mem_map] at hmem
    obtain ⟨a, ha, heq⟩ := hmem
    simp only [Prod.mk.injEq] at heq
    obtain ⟨h1, h2, h3, h4⟩ := heq
    subst h1
    refine ⟨?_, ?_, ?_⟩
    · rw [← h2, sumPVOverSuccess, List.filter_comm]
    · rw [← h3, sumDeltaOverSuccess, List.filter_comm]
    · rw [← h4, sumVegaOverSuccess, List.filter_comm]
  · intro c pv dv vv hmem
    simp only [group_risk_by_currency, h0, Bool.false_eq_true, if_false, List.mem_map] at hmem
    obtain ⟨a, ha, heq⟩ := hmem
    simp only [Prod.mk.injEq] at heq
    obtain ⟨h1, h2, h3, h4⟩ := heq
    subst h1
    refine ⟨?_, ?_, ?_⟩
    · rw [← h2, sumPVOverSuccess, List.filter_comm]
    · rw [← h3, sumDeltaOverSuccess, List.filter_comm]
    · rw [← h4, sumVegaOverSuccess, List.filter_comm]
  · intro r hr
    have hsf : (r :: rows).filter (fun x => x.status = "Success") =
        rows.filter (fun x => x.status = "Success") := by
      simp [List.filter_cons, hr]
    refine ⟨?_, ?_, ?_⟩
    · simp only [calculate_portfolio_totals, List.isEmpty_cons, h0, hsf]
    · simp only [group_risk_by_pair, List.isEmpty_cons, h0, hsf]
    · simp only [group_risk_by_currency, List.isEmpty_cons, h0, hsf]

/-- Witness for C9 at a two-row batch with one success and one failure. -/
theorem C9_witness :
    calculate_portfolio_totals [rSuc, rFail] =
      TotalsFrame.totals (sumPVOverSuccess [rSuc, rFail]) (sumDeltaOverSuccess [rSuc, rFail])
        (sumVegaOverSuccess [rSuc, rFail]) (countSuccess [rSuc, rFail]) ∧
    countSuccess [rSuc, rFail] = 1 := by
  constructor
  · refine (C9_success_only_sums [rSuc, rFail] (by simp)).1 ?_
    simp [rSuc, rFail]
  · simp [countSuccess, rSuc, rFail]

end

end FXRisk
